import Mathlib

/-!
Verification development for the vidshare video-sharing backend.

The server-side logic under scrutiny lives in the Express route module for
videos.  Its pure parts are embedded here over `List Char` strings:

* `generateThumbnailUrl` / `extractVideoId` — the URL classifier heuristics;
* the two upload handlers (file mode and link mode), pure record construction;
* the listing endpoint's filter/sort/paginate pipeline;
* the like-toggle and delete handlers, with the database state made explicit.

JavaScript string operations (`includes`, `split`, `replace`, `trim`, the two
Google-Drive regexes) are modelled by structurally recursive functions with the
same semantics: `split` on a non-empty separator cuts at every leftmost
non-overlapping occurrence, `replace` with a string pattern replaces only the
first occurrence, and a regex match scans for the leftmost position where the
whole pattern matches.
-/

/-- Strings are modelled as lists of characters. -/
abbrev Str := List Char

/-- The character list of a string literal. -/
def str (s : String) : Str := s.data

/-- JavaScript `s.includes(sub)`: `sub` occurs as a contiguous substring of `s`
(the empty pattern always occurs). -/
def jsIncludes : Str → Str → Bool
  | [], sub => sub.isEmpty
  | s@(_ :: rest), sub => sub.isPrefixOf s || jsIncludes rest sub

/-- First occurrence of `pat` in `s`: returns the part before the occurrence
and the part after it, or `none` when `pat` does not occur. -/
def splitOnce : Str → Str → Option (Str × Str)
  | [], pat => if pat.isEmpty then some ([], []) else none
  | c :: rest, pat =>
    if pat.isPrefixOf (c :: rest) then some ([], (c :: rest).drop pat.length)
    else match splitOnce rest pat with
      | some (pre, post) => some (c :: pre, post)
      | none => none

/-- Fuel-driven worker for `jsSplit`. -/
def jsSplitFuel : Nat → Str → Str → List Str
  | 0, s, _ => [s]
  | fuel + 1, s, sep =>
    match splitOnce s sep with
    | none => [s]
    | some (pre, post) => pre :: jsSplitFuel fuel post sep

/-- JavaScript `s.split(sep)` for a non-empty separator: cut at every leftmost
non-overlapping occurrence of `sep`. -/
def jsSplit (s sep : Str) : List Str := jsSplitFuel (s.length + 1) s sep

/-- JavaScript `s.replace(pat, rep)` with a string pattern: replace the first
occurrence only. -/
def jsReplaceFirst (s pat rep : Str) : Str :=
  match splitOnce s pat with
  | none => s
  | some (pre, post) => pre ++ rep ++ post

/-- JavaScript `s.trim()`: strip leading and trailing whitespace. -/
def jsTrim (s : Str) : Str :=
  ((s.dropWhile Char.isWhitespace).reverse.dropWhile Char.isWhitespace).reverse

/-- The regex `[?&]id=([^&]+)` of the video routes: leftmost position whose
character is `?` or `&`, followed by `id=` and at least one non-`&` character;
the captured group is the maximal run of non-`&` characters after `id=`. -/
def driveIdParamMatch : Str → Option Str
  | [] => none
  | a :: rest =>
    if (a = '?' || a = '&') && (str "id=").isPrefixOf rest &&
        (match rest.drop 3 with | [] => false | b :: _ => b ≠ '&') then
      some ((rest.drop 3).takeWhile (· ≠ '&'))
    else driveIdParamMatch rest

/-- The regex `\/file\/d\/([^/]+)` of the video routes: leftmost occurrence of
`/file/d/` followed by at least one non-`/` character; the captured group is
the maximal run of non-`/` characters after it. -/
def driveFileMatch : Str → Option Str
  | [] => none
  | a :: rest =>
    if (str "/file/d/").isPrefixOf (a :: rest) &&
        (match (a :: rest).drop 8 with | [] => false | b :: _ => b ≠ '/') then
      some (((a :: rest).drop 8).takeWhile (· ≠ '/'))
    else driveFileMatch rest

/-- The fixed placeholder stock-image thumbnail returned when no provider
pattern matches. -/
def defaultThumbnail : Str :=
  str "https://images.unsplash.com/photo-1611162617474-5b21e879e113?w=800&h=450&fit=crop&crop=center"

/-- Vimeo branch and final fallback of `generateThumbnailUrl`. -/
def vimeoOrDefault (videoUrl : Str) : Str :=
  if jsIncludes videoUrl (str "vimeo.com") then
    let videoId := ((jsSplit videoUrl (str "/")).getLastD []).takeWhile (· ≠ '?')
    str "https://vumbnail.com/" ++ videoId ++ str ".jpg"
  else defaultThumbnail

/-- YouTube branch of `generateThumbnailUrl`; on no YouTube id it falls through
to the Vimeo branch and the default. -/
def youtubeOrLater (videoUrl : Str) : Str :=
  if jsIncludes videoUrl (str "youtube.com") || jsIncludes videoUrl (str "youtu.be") then
    let videoId :=
      if jsIncludes videoUrl (str "youtube.com/watch?v=") then
        ((jsSplit videoUrl (str "v=")).getD 1 []).takeWhile (· ≠ '&')
      else if jsIncludes videoUrl (str "youtu.be/") then
        ((jsSplit videoUrl (str "youtu.be/")).getD 1 []).takeWhile (· ≠ '?')
      else []
    if videoId ≠ [] then
      str "https://img.youtube.com/vi/" ++ videoId ++ str "/maxresdefault.jpg"
    else vimeoOrDefault videoUrl
  else vimeoOrDefault videoUrl

/-- `generateThumbnailUrl` of the video routes: Cloudinary, then Google Drive
(`/file/d/` match overwrites the `id=` match), then YouTube, then Vimeo, then
the fixed placeholder. -/
def generateThumbnailUrl (videoUrl : Str) : Str :=
  if jsIncludes videoUrl (str "cloudinary.com") then
    jsReplaceFirst videoUrl (str "/video/") (str "/video/so_0/")
  else if jsIncludes videoUrl (str "drive.google.com") then
    let fileId := match driveFileMatch videoUrl with
      | some m => some m
      | none => driveIdParamMatch videoUrl
    match fileId with
    | some id => str "https://drive.google.com/thumbnail?id=" ++ id ++ str "&sz=w800-h450"
    | none => youtubeOrLater videoUrl
  else youtubeOrLater videoUrl

/-- `extractVideoId` of the video routes: a Cloudinary filename stem, or a
Drive id prefixed with `drive_` (the `id=` match takes priority here), else
`null`. -/
def extractVideoId (videoUrl : Str) : Option Str :=
  if jsIncludes videoUrl (str "cloudinary.com") then
    let filename := (jsSplit videoUrl (str "/")).getLastD []
    some ((jsSplit filename (str ".")).getD 0 [])
  else if jsIncludes videoUrl (str "drive.google.com") then
    match driveIdParamMatch videoUrl with
    | some m => some (str "drive_" ++ m)
    | none =>
      match driveFileMatch videoUrl with
      | some m => some (str "drive_" ++ m)
      | none => none
  else none

/-- A video record, as constructed by the upload handlers and stored by the
Video model.  User and video references are modelled as naturals. -/
structure Video where
  title : Str
  description : Str
  cloudinaryId : Str
  videoUrl : Str
  thumbnailUrl : Str
  duration : Nat
  views : Nat
  likes : List Nat
  uploader : Nat
  tags : List Str
  isPrivate : Bool
  createdAt : Nat
  deriving Repr, DecidableEq

/-- `tags ? tags.split(',').map(tag => tag.trim()) : []` — the tag expression
shared verbatim by both upload handlers.  `none` models an absent field and
the empty string is falsy. -/
def splitTags (tags : Option Str) : List Str :=
  match tags with
  | none => []
  | some t => if t = [] then [] else (jsSplit t (str ",")).map jsTrim

/-- The synthesized storage identifier `link_<currentTimestamp>`. -/
def linkId (now : Nat) : Str := str "link_" ++ str (toString now)

/-- Outcome of an upload handler: a 400 with a message or a 201 with the
persisted record. -/
inductive UploadResult where
  | badRequest (msg : Str)
  | created (video : Video)
  deriving Repr, DecidableEq

/-- The record of a `created` outcome, if any. -/
def UploadResult.videoOf : UploadResult → Option Video
  | .badRequest _ => none
  | .created v => some v

/-- File-mode upload (`POST /videos/upload`), pure part: the blob store has
already produced the storage identifier (`req.file.filename`) and the URL
(`req.file.path`); absent file ⇒ 400. -/
def uploadHandler (userId : Nat) (file : Option (Str × Str))
    (title description : Str) (tags : Option Str) : UploadResult :=
  match file with
  | none => .badRequest (str "No video file provided")
  | some (filename, path) =>
    .created
      { title := title
        description := description
        cloudinaryId := filename
        videoUrl := path
        thumbnailUrl := generateThumbnailUrl path
        duration := 0
        views := 0
        likes := []
        uploader := userId
        tags := splitTags tags
        isPrivate := false
        createdAt := 0 }

/-- Link-mode upload (`POST /videos/upload-link`), pure part.  `isValidUrl`
stands for the `new URL(...)` syntactic check; `now` for `Date.now()`.
A missing or empty URL is a 400, an invalid one is a 400; otherwise the
classifier supplies the thumbnail, and the storage identifier is the extracted
id unless it is null or empty, in which case `link_<now>` is synthesized. -/
def uploadLinkHandler (isValidUrl : Str → Bool) (userId now : Nat)
    (title description : Str) (tags videoUrl : Option Str) : UploadResult :=
  match videoUrl with
  | none => .badRequest (str "Video URL is required")
  | some u =>
    if u = [] then .badRequest (str "Video URL is required")
    else if ¬ isValidUrl u then .badRequest (str "Invalid video URL format")
    else
      let cloudinaryId := match extractVideoId u with
        | some s => if s = [] then linkId now else s
        | none => linkId now
      .created
        { title := title
          description := description
          cloudinaryId := cloudinaryId
          videoUrl := u
          thumbnailUrl := generateThumbnailUrl u
          duration := 0
          views := 0
          likes := []
          uploader := userId
          tags := splitTags tags
          isPrivate := false
          createdAt := now }

/-- Result of the like-toggle handler (`POST /videos/:id/like`): the new likes
list of the saved record and the response body `{liked, likesCount}`. -/
structure LikeResult where
  likes : List Nat
  liked : Bool
  likesCount : Nat
  deriving Repr, DecidableEq

/-- The like-toggle computation: membership test on the likes list; if present
filter the caller out, if absent push the caller; respond with the flipped
boolean and the new length. -/
def likeToggle (userId : Nat) (likes : List Nat) : LikeResult :=
  let userLiked := likes.contains userId
  let newLikes := if userLiked then likes.filter (fun i => i != userId)
                  else likes ++ [userId]
  { likes := newLikes, liked := !userLiked, likesCount := newLikes.length }

/-- Database state visible to the delete handler: the video collection keyed
by id, each user's list of owned video ids, and the log of storage identifiers
for which a blob-store delete was attempted. -/
structure DB where
  videos : List (Nat × Video)
  userVideos : List (Nat × List Nat)
  blobAttempts : List Str
  deriving Repr, DecidableEq

/-- Status of a delete request. -/
inductive DeleteResult where
  | notFound
  | forbidden
  | success
  deriving Repr, DecidableEq

/-- The delete handler (`DELETE /videos/:id`): 404 when the id is unknown, 403
when the caller is not the uploader; otherwise a blob-store delete is attempted
iff the stored URL contains `cloudinary.com` (its success `blobOk` is
irrelevant to the rest), then the record is removed and the id pulled from the
caller's video list. -/
def deleteHandler (db : DB) (callerId vid : Nat) (blobOk : Bool) :
    DeleteResult × DB :=
  match db.videos.lookup vid with
  | none => (.notFound, db)
  | some v =>
    if v.uploader ≠ callerId then (.forbidden, db)
    else
      let attempts := if jsIncludes v.videoUrl (str "cloudinary.com") then
          db.blobAttempts ++ [v.cloudinaryId]
        else db.blobAttempts
      let _ := blobOk
      (.success,
        { videos := db.videos.filter (fun p => p.1 != vid)
          userVideos := db.userVideos.map (fun p =>
            if p.1 = callerId then (p.1, p.2.filter (fun i => i != vid)) else p)
          blobAttempts := attempts })

/-- Case-insensitive substring test, modelling the `$regex`/`$options: 'i'`
search on a plain (metacharacter-free) search string. -/
def ciIncludes (s sub : Str) : Bool :=
  jsIncludes (s.map Char.toLower) (sub.map Char.toLower)

/-- The listing query `{ isPrivate: false }` plus the optional `$or` search
over title, description and tags. -/
def matchesQuery (search : Option Str) (v : Video) : Bool :=
  !v.isPrivate &&
    (match search with
     | none => true
     | some s =>
       if s = [] then true
       else ciIncludes v.title s || ciIncludes v.description s ||
         v.tags.any (fun t => ciIncludes t s))

/-- Insert a video into a list sorted by `createdAt` descending. -/
def insertByCreated (v : Video) : List Video → List Video
  | [] => [v]
  | w :: ws =>
    if w.createdAt ≤ v.createdAt then v :: w :: ws
    else w :: insertByCreated v ws

/-- Sort by `createdAt` descending (the `.sort({ createdAt: -1 })` stage). -/
def sortByCreatedDesc : List Video → List Video
  | [] => []
  | v :: vs => insertByCreated v (sortByCreatedDesc vs)

/-- Response of the listing endpoint. -/
structure ListResult where
  videos : List Video
  totalPages : Nat
  currentPage : Nat
  deriving Repr, DecidableEq

/-- `GET /videos`: filter to public (and searched) videos, sort by creation
time descending, skip `(page-1)*limit`, take `limit`, and report
`Math.ceil(total/limit)` total pages. -/
def listVideos (db : List Video) (page limit : Nat) (search : Option Str) :
    ListResult :=
  let matching := db.filter (matchesQuery search)
  let sorted := sortByCreatedDesc matching
  { videos := (sorted.drop ((page - 1) * limit)).take limit
    totalPages := (matching.length + limit - 1) / limit
    currentPage := page }

/-- A sample blob-store-hosted video owned by user 2, used to instantiate the
universally quantified theorems. -/
def sampleVideo : Video :=
  { title := str "t", description := [], cloudinaryId := str "c1"
    videoUrl := str "https://res.cloudinary.com/demo/video/upload/c1.mp4"
    thumbnailUrl := [], duration := 0, views := 0, likes := []
    uploader := 2, tags := [], isPrivate := false, createdAt := 0 }

/-- A sample database holding `sampleVideo` under id 10. -/
def sampleDB : DB :=
  { videos := [(10, sampleVideo)], userVideos := [(2, [10])], blobAttempts := [] }

/-- A public video created at time `n`, used to instantiate the listing
theorems. -/
def pubVideo (n : Nat) : Video :=
  { title := str "v", description := [], cloudinaryId := str "c"
    videoUrl := str "u", thumbnailUrl := [], duration := 0, views := 0
    likes := [], uploader := 1, tags := [], isPrivate := false, createdAt := n }

example : generateThumbnailUrl (str "https://youtu.be/abc123?t=5") =
    str "https://img.youtube.com/vi/abc123/maxresdefault.jpg" := by decide

example : generateThumbnailUrl (str "https://drive.google.com/file/d/XYZ/view") =
    str "https://drive.google.com/thumbnail?id=XYZ&sz=w800-h450" := by decide

example : generateThumbnailUrl (str "https://example.com/file/d/abc/view") =
    defaultThumbnail := by decide

example : extractVideoId (str "https://youtu.be/abc123?t=5") = none := by decide

example : extractVideoId (str "https://drive.google.com/uc?export=download&id=AA") =
    some (str "drive_AA") := by decide

/-! ## Like toggle (claims C5, C6) -/

theorem filter_ne_of_not_mem (u : Nat) (l : List Nat) (h : u ∉ l) :
    l.filter (fun i => i != u) = l := by
  rw [List.filter_eq_self]
  intro a ha
  simp
  rintro rfl
  exact h ha

/-- C5: liking then unliking by the same user restores the likes list and its
count, provided the caller is not already in the (duplicate-free) list. -/
theorem like_unlike_roundtrip (u : Nat) (likes : List Nat)
    (hmem : u ∉ likes) (_hnd : likes.Nodup) :
    (likeToggle u (likeToggle u likes).likes).likes = likes ∧
    (likeToggle u (likeToggle u likes).likes).likesCount = likes.length := by
  have h1 : (likeToggle u likes).likes = likes ++ [u] := by
    simp [likeToggle, List.contains, hmem]
  have h2 : (likes ++ [u]).contains u = true := by
    simp [List.contains]
  have h3 : (likeToggle u (likes ++ [u])).likes = likes := by
    simp only [likeToggle, h2, if_pos, List.filter_append]
    rw [filter_ne_of_not_mem u likes hmem]
    simp
  constructor
  · rw [h1, h3]
  · rw [h1]
    simp only [likeToggle, h2, if_pos, List.filter_append]
    rw [filter_ne_of_not_mem u likes hmem]
    simp

/-- C5 witness. -/
theorem like_unlike_roundtrip_witness :
    (likeToggle 5 (likeToggle 5 [2, 3]).likes).likes = [2, 3] ∧
    (likeToggle 5 (likeToggle 5 [2, 3]).likes).likesCount = 2 :=
  like_unlike_roundtrip 5 [2, 3] (by decide) (by decide)

/-- C6: a single like-toggle call preserves duplicate-freeness, flips exactly
the caller's membership (reporting the flip direction in `liked`), leaves
every other user's membership unchanged, and reports the new list's length as
`likesCount`. -/
theorem like_toggle_invariant (u : Nat) (likes : List Nat) (hnd : likes.Nodup) :
    (likeToggle u likes).likes.Nodup ∧
    (u ∈ likes → (likeToggle u likes).liked = false ∧ u ∉ (likeToggle u likes).likes) ∧
    (u ∉ likes → (likeToggle u likes).liked = true ∧ u ∈ (likeToggle u likes).likes) ∧
    (∀ w, w ≠ u → (w ∈ (likeToggle u likes).likes ↔ w ∈ likes)) ∧
    (likeToggle u likes).likesCount = (likeToggle u likes).likes.length := by
  by_cases hmem : u ∈ likes
  · have hc : likes.contains u = true := by simp [List.contains, hmem]
    refine ⟨?_, ?_, ?_, ?_, ?_⟩
    · simp only [likeToggle, hc, if_pos]
      exact hnd.filter _
    · intro _
      simp [likeToggle, hc, hmem]
    · intro h
      exact absurd hmem h
    · intro w hw
      simp [likeToggle, hc, hmem, hw]
    · simp [likeToggle, hc]
  · have hc : likes.contains u = false := by simp [List.contains, hmem]
    refine ⟨?_, ?_, ?_, ?_, ?_⟩
    · simp only [likeToggle, hc, if_neg, Bool.false_eq_true, not_false_iff]
      simp [List.nodup_append, hmem, hnd]
    · intro h
      exact absurd h hmem
    · intro _
      simp [likeToggle, hc, hmem]
    · intro w hw
      simp [likeToggle, hc, hmem, hw]
    · simp [likeToggle, hc]

/-- C6 witness. -/
theorem like_toggle_invariant_witness :
    (likeToggle 3 [2, 3, 4]).likes.Nodup ∧
    (3 ∈ [2, 3, 4] → (likeToggle 3 [2, 3, 4]).liked = false ∧
      3 ∉ (likeToggle 3 [2, 3, 4]).likes) ∧
    (3 ∉ [2, 3, 4] → (likeToggle 3 [2, 3, 4]).liked = true ∧
      3 ∈ (likeToggle 3 [2, 3, 4]).likes) ∧
    (∀ w, w ≠ 3 → (w ∈ (likeToggle 3 [2, 3, 4]).likes ↔ w ∈ [2, 3, 4])) ∧
    (likeToggle 3 [2, 3, 4]).likesCount = (likeToggle 3 [2, 3, 4]).likes.length :=
  like_toggle_invariant 3 [2, 3, 4] (by decide)

/-! ## Link-mode upload end-to-end (claim C3) -/

/-- C3: an upload-link request for `https://youtu.be/abc123?t=5` produces a
created record whose thumbnail is the maxresdefault frame of video `abc123`:
the id is the text after `youtu.be/` with the trailing query stripped. -/
theorem uploadLink_youtube_shortlink_thumbnail :
    ((uploadLinkHandler (fun _ => true) 1 7 (str "My clip") (str "")
        none (some (str "https://youtu.be/abc123?t=5"))).videoOf).map
      Video.thumbnailUrl =
      some (str "https://img.youtube.com/vi/abc123/maxresdefault.jpg") := by
  decide

/-! ## Delete handler (claims C7, C8) -/

theorem lookup_filter_ne (l : List (Nat × Video)) (vid : Nat) :
    (l.filter (fun p => p.1 != vid)).lookup vid = none := by
  induction l with
  | nil => rfl
  | cons p rest ih =>
    by_cases h : p.1 = vid
    · simp [List.filter, h, ih]
    · simp only [List.filter]
      have hb : (p.1 != vid) = true := by simp [h]
      rw [hb]
      simp only [List.lookup]
      have : (vid == p.1) = false := by simp [Ne.symm h]
      rw [this]
      exact ih

/-- C7: a delete request by an authenticated non-owner yields the
authorization error and leaves the whole database state (video collection,
user video lists, blob-store log) unchanged; an unknown video id yields the
not-found error, likewise with no state change. -/
theorem delete_nonowner_or_missing_unchanged (db : DB) (caller vid : Nat)
    (blobOk : Bool) :
    (∀ v, db.videos.lookup vid = some v → v.uploader ≠ caller →
      deleteHandler db caller vid blobOk = (.forbidden, db)) ∧
    (db.videos.lookup vid = none →
      deleteHandler db caller vid blobOk = (.notFound, db)) := by
  constructor
  · intro v hl hown
    simp [deleteHandler, hl, hown]
  · intro hl
    simp [deleteHandler, hl]

/-- C7 witness: caller 1 attempts to delete video 10 owned by user 2, then a
nonexistent video 99. -/
theorem delete_nonowner_or_missing_unchanged_witness :
    deleteHandler sampleDB 1 10 true = (.forbidden, sampleDB) ∧
    deleteHandler sampleDB 1 99 true = (.notFound, sampleDB) :=
  ⟨(delete_nonowner_or_missing_unchanged sampleDB 1 10 true).1 sampleVideo
      (by decide) (by decide),
   (delete_nonowner_or_missing_unchanged sampleDB 1 99 true).2 (by decide)⟩

/-- C8: when the owner deletes a video, a blob-store failure (`blobOk = false`)
does not block the operation — the handler still reports success, the record
is gone from the video collection, and the id is pulled from the owner's video
list; moreover the blob-store delete is attempted (with the stored identifier)
exactly when the stored URL contains the `cloudinary.com` marker. -/
theorem delete_blob_failure_nonblocking (db : DB) (caller vid : Nat) (v : Video)
    (hl : db.videos.lookup vid = some v) (hown : v.uploader = caller) :
    (deleteHandler db caller vid false).1 = .success ∧
    (deleteHandler db caller vid false).2.videos.lookup vid = none ∧
    (∀ p ∈ (deleteHandler db caller vid false).2.userVideos,
      p.1 = caller → vid ∉ p.2) ∧
    (jsIncludes v.videoUrl (str "cloudinary.com") = true →
      (deleteHandler db caller vid false).2.blobAttempts =
        db.blobAttempts ++ [v.cloudinaryId]) ∧
    (jsIncludes v.videoUrl (str "cloudinary.com") = false →
      (deleteHandler db caller vid false).2.blobAttempts = db.blobAttempts) := by
  have hres : deleteHandler db caller vid false =
      (.success,
        { videos := db.videos.filter (fun p => p.1 != vid)
          userVideos := db.userVideos.map (fun p =>
            if p.1 = caller then (p.1, p.2.filter (fun i => i != vid)) else p)
          blobAttempts := if jsIncludes v.videoUrl (str "cloudinary.com") then
              db.blobAttempts ++ [v.cloudinaryId]
            else db.blobAttempts }) := by
    simp [deleteHandler, hl, hown]
  refine ⟨by rw [hres], ?_, ?_, ?_, ?_⟩
  · rw [hres]
    exact lookup_filter_ne db.videos vid
  · rw [hres]
    intro p hp hcp
    rcases List.mem_map.mp hp with ⟨q, _, rfl⟩
    by_cases hq : q.1 = caller
    · simp only [hq, if_pos]
      simp
    · rw [if_neg hq] at hcp
      exact absurd hcp hq
  · intro hu
    rw [hres]
    simp [hu]
  · intro hu
    rw [hres]
    simp [hu]

/-- C8 witness: owner 2 deletes video 10 while the blob store fails. -/
theorem delete_blob_failure_nonblocking_witness :
    (deleteHandler sampleDB 2 10 false).1 = .success ∧
    (deleteHandler sampleDB 2 10 false).2.videos.lookup 10 = none ∧
    (∀ p ∈ (deleteHandler sampleDB 2 10 false).2.userVideos,
      p.1 = 2 → 10 ∉ p.2) ∧
    (jsIncludes sampleVideo.videoUrl (str "cloudinary.com") = true →
      (deleteHandler sampleDB 2 10 false).2.blobAttempts =
        sampleDB.blobAttempts ++ [sampleVideo.cloudinaryId]) ∧
    (jsIncludes sampleVideo.videoUrl (str "cloudinary.com") = false →
      (deleteHandler sampleDB 2 10 false).2.blobAttempts =
        sampleDB.blobAttempts) :=
  delete_blob_failure_nonblocking sampleDB 2 10 sampleVideo (by decide) (by decide)

/-! ## Classifier fallback and identifier synthesis (claims C4, C10) -/

/-- C4: a URL matching no recognized provider pattern — no `cloudinary.com`,
no YouTube or Vimeo marker, and neither Drive regex matching (which covers in
particular `drive.google.com` URLs with neither an `id=` parameter nor a
`/file/d/` segment) — gets exactly the fixed placeholder thumbnail, a null
extracted id, and a link-mode upload then stores `link_<currentTimestamp>`. -/
theorem no_provider_fallback (u : Str) (valid : Str → Bool) (userId now : Nat)
    (title desc : Str) (tags : Option Str)
    (h1 : jsIncludes u (str "cloudinary.com") = false)
    (h2 : jsIncludes u (str "youtube.com") = false)
    (h3 : jsIncludes u (str "youtu.be") = false)
    (h4 : jsIncludes u (str "vimeo.com") = false)
    (h5 : jsIncludes u (str "drive.google.com") = true → driveIdParamMatch u = none)
    (h6 : jsIncludes u (str "drive.google.com") = true → driveFileMatch u = none)
    (hv : valid u = true) (hne : u ≠ []) :
    generateThumbnailUrl u = defaultThumbnail ∧
    extractVideoId u = none ∧
    ((uploadLinkHandler valid userId now title desc tags (some u)).videoOf).map
      Video.cloudinaryId = some (linkId now) := by
  have hid : extractVideoId u = none := by
    by_cases hd : jsIncludes u (str "drive.google.com")
    · simp [extractVideoId, h1, h5 hd, h6 hd, hd]
    · simp [extractVideoId, h1, hd]
  have hthumb : generateThumbnailUrl u = defaultThumbnail := by
    by_cases hd : jsIncludes u (str "drive.google.com")
    · simp [generateThumbnailUrl, youtubeOrLater, vimeoOrDefault,
        h1, h2, h3, h4, h5 hd, h6 hd, hd]
    · simp [generateThumbnailUrl, youtubeOrLater, vimeoOrDefault,
        h1, h2, h3, h4, hd]
  refine ⟨hthumb, hid, ?_⟩
  simp [uploadLinkHandler, UploadResult.videoOf, hne, hv, hid]

/-- C4 witness: a Drive URL with neither an `id=` parameter nor a `/file/d/`
segment. -/
theorem no_provider_fallback_witness :
    jsIncludes (str "https://drive.google.com/open?usp=sharing")
      (str "cloudinary.com") = false ∧
    (generateThumbnailUrl (str "https://drive.google.com/open?usp=sharing") =
      defaultThumbnail ∧
    extractVideoId (str "https://drive.google.com/open?usp=sharing") = none ∧
    ((uploadLinkHandler (fun _ => true) 1 7 (str "t") (str "") none
        (some (str "https://drive.google.com/open?usp=sharing"))).videoOf).map
      Video.cloudinaryId = some (linkId 7)) :=
  ⟨by decide,
   no_provider_fallback (str "https://drive.google.com/open?usp=sharing")
    (fun _ => true) 1 7 (str "t") (str "") none
    (by decide) (by decide) (by decide) (by decide) (by decide) (by decide)
    (by decide) (by decide)⟩

/-- C10: only Cloudinary-hosted and Google-Drive URLs ever yield an extracted
identifier; for a YouTube or Vimeo URL (one carrying none of the earlier
markers) `extractVideoId` is null and the link-mode upload stores the
synthesized `link_<currentTimestamp>` identifier instead. -/
theorem youtube_vimeo_extract_null (u : Str) (valid : Str → Bool)
    (userId now : Nat) (title desc : Str) (tags : Option Str)
    (_hprov : jsIncludes u (str "youtube.com") = true ∨
      jsIncludes u (str "youtu.be") = true ∨
      jsIncludes u (str "vimeo.com") = true)
    (h1 : jsIncludes u (str "cloudinary.com") = false)
    (h2 : jsIncludes u (str "drive.google.com") = false)
    (hv : valid u = true) (hne : u ≠ []) :
    extractVideoId u = none ∧
    ((uploadLinkHandler valid userId now title desc tags (some u)).videoOf).map
      Video.cloudinaryId = some (linkId now) ∧
    (∀ w : Str, extractVideoId w ≠ none →
      jsIncludes w (str "cloudinary.com") = true ∨
      jsIncludes w (str "drive.google.com") = true) := by
  have hid : extractVideoId u = none := by
    simp [extractVideoId, h1, h2]
  refine ⟨hid,
    by simp [uploadLinkHandler, UploadResult.videoOf, hne, hv, hid], ?_⟩
  intro w hw
  by_cases hc : jsIncludes w (str "cloudinary.com") = true
  · exact Or.inl hc
  · by_cases hd : jsIncludes w (str "drive.google.com") = true
    · exact Or.inr hd
    · exfalso
      apply hw
      simp only [Bool.not_eq_true] at hc hd
      simp [extractVideoId, hc, hd]

/-- C10 witness: the YouTube short link of claim C3. -/
theorem youtube_vimeo_extract_null_witness :
    extractVideoId (str "https://youtu.be/abc123?t=5") = none ∧
    ((uploadLinkHandler (fun _ => true) 4 9 (str "t") (str "") none
        (some (str "https://youtu.be/abc123?t=5"))).videoOf).map
      Video.cloudinaryId = some (linkId 9) ∧
    (∀ w : Str, extractVideoId w ≠ none →
      jsIncludes w (str "cloudinary.com") = true ∨
      jsIncludes w (str "drive.google.com") = true) :=
  youtube_vimeo_extract_null (str "https://youtu.be/abc123?t=5")
    (fun _ => true) 4 9 (str "t") (str "") none
    (Or.inr (Or.inl (by decide))) (by decide) (by decide) (by decide) (by decide)

/-! ## Tag splitting (claim C2) -/

theorem splitOnce_none_single (c : Char) :
    ∀ s : Str, splitOnce s [c] = none → c ∉ s := by
  intro s
  induction s with
  | nil => intro _ h; exact absurd h (List.not_mem_nil c)
  | cons a rest ih =>
    intro h
    by_cases hc : c = a
    · exfalso
      have : [c].isPrefixOf (a :: rest) = true := by simp [List.isPrefixOf, hc]
      simp [splitOnce, this] at h
    · have hp : [c].isPrefixOf (a :: rest) = false := by
        simp [List.isPrefixOf, hc]
      simp only [splitOnce, hp, Bool.false_eq_true, if_false] at h
      intro hmem
      rcases List.mem_cons.mp hmem with rfl | hmem
      · exact hc rfl
      · cases hrec : splitOnce rest [c] with
        | none => exact absurd hmem (ih hrec)
        | some pq => rw [hrec] at h; cases h

theorem splitOnce_some_single (c : Char) :
    ∀ s pre post : Str, splitOnce s [c] = some (pre, post) →
      c ∉ pre ∧ s = pre ++ c :: post := by
  intro s
  induction s with
  | nil => intro pre post h; simp [splitOnce] at h
  | cons a rest ih =>
    intro pre post h
    by_cases hc : c = a
    · have hp : [c].isPrefixOf (a :: rest) = true := by simp [List.isPrefixOf, hc]
      simp only [splitOnce, hp, if_pos, List.length_cons, List.length_nil,
        List.drop_succ_cons, List.drop_zero, Option.some.injEq, Prod.mk.injEq] at h
      rcases h with ⟨rfl, rfl⟩
      exact ⟨List.not_mem_nil c, by simp [hc]⟩
    · have hp : [c].isPrefixOf (a :: rest) = false := by
        simp [List.isPrefixOf, hc]
      simp only [splitOnce, hp, Bool.false_eq_true, if_false] at h
      cases hrec : splitOnce rest [c] with
      | none => rw [hrec] at h; cases h
      | some pq =>
        rw [hrec] at h
        obtain ⟨p, q⟩ := pq
        simp only [Option.some.injEq, Prod.mk.injEq] at h
        rcases h with ⟨rfl, rfl⟩
        rcases ih p q hrec with ⟨hnp, rfl⟩
        refine ⟨?_, rfl⟩
        intro hmem
        rcases List.mem_cons.mp hmem with rfl | hmem
        · exact hc rfl
        · exact hnp hmem

theorem mem_jsSplitFuel_single (c : Char) :
    ∀ (fuel : Nat) (s : Str), s.length < fuel →
      ∀ seg ∈ jsSplitFuel fuel s [c], c ∉ seg := by
  intro fuel
  induction fuel with
  | zero => intro s h; exact absurd h (Nat.not_lt_zero _)
  | succ n ih =>
    intro s hlen seg hseg
    cases hsplit : splitOnce s [c] with
    | none =>
      simp only [jsSplitFuel, hsplit, List.mem_singleton] at hseg
      rw [hseg]
      exact splitOnce_none_single c s hsplit
    | some pq =>
      obtain ⟨pre, post⟩ := pq
      rcases splitOnce_some_single c s pre post hsplit with ⟨hnp, hs⟩
      simp only [jsSplitFuel, hsplit, List.mem_cons] at hseg
      rcases hseg with rfl | hseg
      · exact hnp
      · have hpost : post.length < n := by
          have : s.length = pre.length + (post.length + 1) := by
            rw [hs]; simp [Nat.add_comm, Nat.add_left_comm]
          omega
        exact ih post hpost seg hseg

theorem jsSplit_single_no_sep (c : Char) (s : Str) :
    ∀ seg ∈ jsSplit s [c], c ∉ seg :=
  mem_jsSplitFuel_single c (s.length + 1) s (Nat.lt_succ_self _)

theorem mem_of_mem_jsTrim (c : Char) (s : Str) : c ∈ jsTrim s → c ∈ s := by
  intro h
  simp only [jsTrim, List.mem_reverse] at h
  have h2 : ((s.dropWhile Char.isWhitespace).reverse.dropWhile
      Char.isWhitespace).Sublist (s.dropWhile Char.isWhitespace).reverse :=
    List.dropWhile_sublist _
  have h3 := h2.subset h
  rw [List.mem_reverse] at h3
  have h4 : (s.dropWhile Char.isWhitespace).Sublist s := List.dropWhile_sublist _
  exact h4.subset h3

/-- C2 counterexample: with the caller-supplied tag string `a,,b`, the stored
tag list is `["a", "", "b"]` — the empty middle segment is kept, not excluded
as the claim states (which would give `["a", "b"]`). -/
theorem upload_tags_counterexample :
    ((uploadLinkHandler (fun _ => true) 1 7 (str "t") (str "")
        (some (str "a,,b")) (some (str "https://youtu.be/x"))).videoOf).map
      Video.tags = some [str "a", [], str "b"] ∧
    ((uploadLinkHandler (fun _ => true) 1 7 (str "t") (str "")
        (some (str "a,,b")) (some (str "https://youtu.be/x"))).videoOf).map
      Video.tags ≠ some [str "a", str "b"] := by
  decide

/-- C2 amended: both upload modes store as tags exactly the comma-split
segments of the caller-supplied string, each trimmed, with empty segments
retained (not excluded); segments never contain a comma; and an absent or
empty tag string yields the empty tag list. -/
theorem upload_tags_amended (userId now : Nat) (valid : Str → Bool)
    (title desc : Str) (tags : Option Str) (filename path u : Str)
    (hv : valid u = true) (hu : u ≠ []) :
    ((uploadHandler userId (some (filename, path)) title desc tags).videoOf).map
      Video.tags = some (splitTags tags) ∧
    ((uploadLinkHandler valid userId now title desc tags (some u)).videoOf).map
      Video.tags = some (splitTags tags) ∧
    splitTags none = [] ∧
    splitTags (some []) = [] ∧
    (∀ t : Str, t ≠ [] → splitTags (some t) = (jsSplit t (str ",")).map jsTrim) ∧
    (∀ t : Str, ∀ seg ∈ splitTags (some t), ',' ∉ seg) := by
  refine ⟨?_, ?_, rfl, rfl, ?_, ?_⟩
  · simp [uploadHandler, UploadResult.videoOf]
  · simp [uploadLinkHandler, UploadResult.videoOf, hu, hv]
  · intro t ht
    simp [splitTags, ht]
  · intro t seg hseg
    by_cases ht : t = []
    · subst ht
      simp [splitTags] at hseg
    · have heq : splitTags (some t) = (jsSplit t (str ",")).map jsTrim := by
        simp [splitTags, ht]
      rw [heq] at hseg
      rcases List.mem_map.mp hseg with ⟨s0, hs0, rfl⟩
      intro hc
      exact jsSplit_single_no_sep ',' t s0 hs0 (mem_of_mem_jsTrim ',' s0 hc)

/-- C2 witness: tag string `" a ,b"` in link mode stores the trimmed split. -/
theorem upload_tags_amended_witness :
    ((uploadLinkHandler (fun _ => true) 1 7 (str "t") (str "")
        (some (str " a ,b")) (some (str "https://youtu.be/x"))).videoOf).map
      Video.tags = some (splitTags (some (str " a ,b"))) :=
  (upload_tags_amended 1 7 (fun _ => true) (str "t") (str "")
    (some (str " a ,b")) (str "f") (str "p") (str "https://youtu.be/x")
    (by decide) (by decide)).2.1

/-! ## Listing pagination (claim C9) -/

/-- C9: against a catalog of exactly three public videos matching the query,
page 2 with limit 1 returns exactly the second-most-recent video by creation
time, together with `totalPages = ceil(3/1) = 3`. -/
theorem listing_page2_limit1 (a b c : Video)
    (ha : matchesQuery none a = true) (hb : matchesQuery none b = true)
    (hc : matchesQuery none c = true)
    (hab : a.createdAt < b.createdAt) (hbc : b.createdAt < c.createdAt) :
    listVideos [a, b, c] 2 1 none =
      { videos := [b], totalPages := 3, currentPage := 2 } := by
  have hfilter : [a, b, c].filter (matchesQuery none) = [a, b, c] := by
    simp [List.filter, ha, hb, hc]
  have h1 : ¬ (c.createdAt ≤ b.createdAt) := Nat.not_le.mpr hbc
  have h2 : ¬ (c.createdAt ≤ a.createdAt) :=
    Nat.not_le.mpr (Nat.lt_trans hab hbc)
  have h3 : ¬ (b.createdAt ≤ a.createdAt) := Nat.not_le.mpr hab
  have hsort : sortByCreatedDesc [a, b, c] = [c, b, a] := by
    simp [sortByCreatedDesc, insertByCreated, h1, h2, h3]
  simp [listVideos, hfilter, hsort]

/-- C9 witness: three public videos created at times 1, 2, 3. -/
theorem listing_page2_limit1_witness :
    listVideos [pubVideo 1, pubVideo 2, pubVideo 3] 2 1 none =
      { videos := [pubVideo 2], totalPages := 3, currentPage := 2 } :=
  listing_page2_limit1 (pubVideo 1) (pubVideo 2) (pubVideo 3)
    (by decide) (by decide) (by decide) (by decide) (by decide)

/-! ## Drive share-link thumbnails (claim C1) -/

theorem takeWhile_append_of_all (p : Char → Bool) (xs : Str) (y : Char)
    (ys : Str) (hxs : ∀ x ∈ xs, p x = true) (hy : p y = false) :
    ((xs ++ y :: ys).takeWhile p) = xs := by
  induction xs with
  | nil => simp [List.takeWhile, hy]
  | cons a rest ih =>
    have ha : p a = true := hxs a (List.mem_cons_self a rest)
    simp only [List.cons_append, List.takeWhile_cons, ha, if_pos]
    rw [ih (fun x hx => hxs x (List.mem_cons_of_mem a hx))]

theorem driveFileMatch_canonical (c : Char) (idtail rest : Str)
    (hslash : '/' ∉ c :: idtail) :
    driveFileMatch
        (str "https://drive.google.com/file/d/" ++ (c :: idtail) ++ '/' :: rest) =
      some (c :: idtail) := by
  have hc : (c ≠ '/') := fun h => hslash (h ▸ List.mem_cons_self c idtail)
  have htw : List.takeWhile (fun x => !decide (x = '/'))
      (idtail ++ '/' :: rest) = idtail := by
    apply takeWhile_append_of_all
    · intro x hx
      simp only [Bool.not_eq_true', decide_eq_false_iff_not]
      intro h
      exact hslash (List.mem_cons_of_mem c (h ▸ hx))
    · simp
  simp [str, driveFileMatch, List.isPrefixOf, hc, htw]

/-- C1 counterexample: the URL `https://example.com/file/d/abc/view` contains
the Drive path pattern `/file/d/<id>/`, yet the classifier returns the fixed
placeholder (the Drive branch is guarded by a `drive.google.com` marker test),
not the Drive thumbnail the claim demands. -/
theorem drive_share_thumbnail_counterexample :
    generateThumbnailUrl (str "https://example.com/file/d/abc/view") =
      defaultThumbnail ∧
    generateThumbnailUrl (str "https://example.com/file/d/abc/view") ≠
      str "https://drive.google.com/thumbnail?id=abc&sz=w800-h450" := by
  decide

/-- C1 amended: for every canonical Drive share URL
`https://drive.google.com/file/d/<id>/<rest>` — nonempty slash-free `<id>`,
and the URL not containing the `cloudinary.com` marker tested earlier — the
classifier returns `https://drive.google.com/thumbnail?id=<id>&sz=w800-h450`
where `<id>` is the path segment immediately following `/file/d/`. -/
theorem drive_share_thumbnail (id rest : Str) (hne : id ≠ [])
    (hslash : '/' ∉ id)
    (hcl : jsIncludes (str "https://drive.google.com/file/d/" ++ id ++ '/' :: rest)
      (str "cloudinary.com") = false) :
    generateThumbnailUrl
        (str "https://drive.google.com/file/d/" ++ id ++ '/' :: rest) =
      str "https://drive.google.com/thumbnail?id=" ++ id ++ str "&sz=w800-h450" := by
  obtain ⟨c, idtail, rfl⟩ : ∃ c idtail, id = c :: idtail := by
    cases id with
    | nil => exact absurd rfl hne
    | cons c t => exact ⟨c, t, rfl⟩
  have hdm := driveFileMatch_canonical c idtail rest hslash
  have hdrive : jsIncludes
      (str "https://drive.google.com/file/d/" ++ (c :: idtail) ++ '/' :: rest)
      (str "drive.google.com") = true := by
    simp [str, jsIncludes, List.isPrefixOf]
  simp only [str, List.cons_append, List.nil_append, List.append_assoc]
    at hcl hdrive hdm ⊢
  simp [generateThumbnailUrl, str, hcl, hdrive, hdm]

/-- C1 witness: the share URL `https://drive.google.com/file/d/XYZ/view`. -/
theorem drive_share_thumbnail_witness :
    generateThumbnailUrl
        (str "https://drive.google.com/file/d/" ++ str "XYZ" ++ '/' :: str "view") =
      str "https://drive.google.com/thumbnail?id=" ++ str "XYZ" ++
        str "&sz=w800-h450" :=
  drive_share_thumbnail (str "XYZ") (str "view") (by decide) (by decide)
    (by decide)
